import Mathlib

/-!
Shallow embedding of the `report_generator` package (Jshatto/Report_Generator)
and proofs about it.

Conventions of the embedding:

* Python `Decimal` values are modelled as exact rationals (`ℚ`).  The package
  uses `Decimal` precisely to get exact base-10 arithmetic for currency, and
  every amount it manipulates stays far below the default 28-significant-digit
  context, so addition, negation and comparison are exact; the rational model
  shares this exactness.  `str(Decimal)`'s scale-preserving output (trailing
  zeros) is abstracted by `decStr`; no theorem below depends on those strings.
* Python `datetime.date` is the `Date` structure (a year/month/day triple)
  ordered lexicographically, which matches `date`'s ordering.
* Python dicts are association lists in key-insertion order (Python dicts
  preserve insertion order); `dict(sorted(d.items()))` is `sortBy` of the
  association list.  Keys of a dict are distinct, so sorting the `(key, value)`
  tuples compares only the keys.
* Python strings compare lexicographically by code point; `strLtB`/`strLeB`
  implement exactly that over `String.data` (Lean's built-in `String` order is
  the same order but is not kernel-reducible, so we keep our own).
* `str.strip()` is `pyStrip` (ASCII whitespace; the Unicode-only extras of
  Python's strip never matter here).
* Fallible code returns `Except LoadError`; each `LoadError` constructor
  corresponds to one distinct Python exception/message raised by the source.
-/

/-- Calendar date, modelling `datetime.date`: a year/month/day triple. -/
structure Date where
  year : Nat
  month : Nat
  day : Nat
  deriving DecidableEq

/-- Strict order on dates: lexicographic on (year, month, day), matching
`datetime.date`'s comparison. -/
def dateLtB (a b : Date) : Bool :=
  decide (a.year < b.year
    ∨ (a.year = b.year ∧ (a.month < b.month ∨ (a.month = b.month ∧ a.day < b.day))))

/-- Reflexive order on dates (lexicographic). -/
def dateLeB (a b : Date) : Bool :=
  decide (a.year < b.year
    ∨ (a.year = b.year ∧ (a.month < b.month ∨ (a.month = b.month ∧ a.day ≤ b.day))))

/-- Left-pad the decimal digits of `n` with zeros to width `w`. -/
def padNum (w n : Nat) : String :=
  let s := toString n
  String.mk (List.replicate (w - s.length) '0') ++ s

/-- Model of `date.isoformat()`: `YYYY-MM-DD` with zero padding. -/
def Date.isoformat (d : Date) : String :=
  padNum 4 d.year ++ "-" ++ padNum 2 d.month ++ "-" ++ padNum 2 d.day

/-- English month abbreviations used by `strftime("%b ...")`. -/
def monthAbbrev : Nat → String
  | 1 => "Jan"
  | 2 => "Feb"
  | 3 => "Mar"
  | 4 => "Apr"
  | 5 => "May"
  | 6 => "Jun"
  | 7 => "Jul"
  | 8 => "Aug"
  | 9 => "Sep"
  | 10 => "Oct"
  | 11 => "Nov"
  | 12 => "Dec"
  | _ => ""

/-- Model of `date.strftime("%b %d, %Y")`, e.g. `Jan 01, 2024`. -/
def Date.strftimeAbbrev (d : Date) : String :=
  monthAbbrev d.month ++ " " ++ padNum 2 d.day ++ ", " ++ toString d.year

/-- The whitespace characters stripped by Python's `str.strip()` (ASCII part). -/
def pyIsSpace (c : Char) : Bool :=
  c == ' ' || c == '\t' || c == '\n' || c == '\r' || c == '\x0b' || c == '\x0c'

/-- Model of Python `str.strip()`: drop leading and trailing whitespace. -/
def pyStrip (s : String) : String :=
  String.mk (((s.data.dropWhile pyIsSpace).reverse.dropWhile pyIsSpace).reverse)

/-- Strict lexicographic order on character lists (Python `str` comparison is
lexicographic by code point). -/
def lexLtB : List Char → List Char → Bool
  | [], [] => false
  | [], _ :: _ => true
  | _ :: _, [] => false
  | a :: as, b :: bs => if a < b then true else if b < a then false else lexLtB as bs

/-- Reflexive lexicographic order on character lists. -/
def lexLeB : List Char → List Char → Bool
  | [], _ => true
  | _ :: _, [] => false
  | a :: as, b :: bs => if a < b then true else if b < a then false else lexLeB as bs

/-- Python `<` on strings. -/
def strLtB (x y : String) : Bool := lexLtB x.data y.data

/-- Python `<=` on strings. -/
def strLeB (x y : String) : Bool := lexLeB x.data y.data

/-- Is `c` an ASCII digit? -/
def isDigitB (c : Char) : Bool := '0' ≤ c && c ≤ '9'

/-- Numeric value of an ASCII digit. -/
def digitVal (c : Char) : Nat := c.toNat - '0'.toNat

/-- Read a digit list as a base-10 natural number. -/
def digitsToNat (cs : List Char) : Nat := cs.foldl (fun a c => a * 10 + digitVal c) 0

/-- Gregorian leap-year rule (as implemented by `datetime`). -/
def isLeapYear (y : Nat) : Bool := y % 4 == 0 && (y % 100 != 0 || y % 400 == 0)

/-- Number of days of month `m` in year `y` (as validated by `datetime.date`). -/
def daysInMonth (y m : Nat) : Nat :=
  if m = 2 then (if isLeapYear y then 29 else 28)
  else if m = 4 ∨ m = 6 ∨ m = 9 ∨ m = 11 then 30
  else 31

/-- Model of `datetime.date.fromisoformat`: accepts exactly the strict
`YYYY-MM-DD` form (four digits, dash, two digits, dash, two digits) denoting a
valid calendar date with year 1–9999, and rejects everything else with
`ValueError`.  (This is the documented behaviour of `fromisoformat` on the
Python versions the package targets.) -/
def parseIsoDate (s : String) : Option Date :=
  match s.data with
  | [y1, y2, y3, y4, s1, m1, m2, s2, d1, d2] =>
    if isDigitB y1 && isDigitB y2 && isDigitB y3 && isDigitB y4
        && s1 == '-' && s2 == '-'
        && isDigitB m1 && isDigitB m2 && isDigitB d1 && isDigitB d2 then
      let y := digitsToNat [y1, y2, y3, y4]
      let m := digitsToNat [m1, m2]
      let d := digitsToNat [d1, d2]
      if 1 ≤ y && y ≤ 9999 && 1 ≤ m && m ≤ 12 && 1 ≤ d && d ≤ daysInMonth y m then
        some ⟨y, m, d⟩
      else none
    else none
  | _ => none

/-- Exponent tail of a decimal numeric string: empty, or `e`/`E` followed by an
optional sign and at least one digit. -/
def parseExpTail : List Char → Option Int
  | [] => some 0
  | c :: rest =>
    if c == 'e' || c == 'E' then
      match rest with
      | '+' :: ds =>
        if ds ≠ [] ∧ ds.all isDigitB then some (digitsToNat ds : Int) else none
      | '-' :: ds =>
        if ds ≠ [] ∧ ds.all isDigitB then some (-(digitsToNat ds : Int)) else none
      | ds =>
        if ds ≠ [] ∧ ds.all isDigitB then some (digitsToNat ds : Int) else none
    else none

/-- Sign prefix of a decimal numeric string. -/
def parseSignPre : List Char → ℚ × List Char
  | '+' :: rest => (1, rest)
  | '-' :: rest => (-1, rest)
  | cs => (1, cs)

/-- Core of `Decimal(str)` on a cleaned character list: optional sign, digits
with an optional decimal point, optional exponent; at least one digit must be
present in the mantissa. -/
def parseDecCore (cs : List Char) : Option ℚ :=
  let sp := parseSignPre cs
  let ip := List.span isDigitB sp.2
  match ip.2 with
  | '.' :: rest2 =>
    let fp := List.span isDigitB rest2
    if ip.1 = [] ∧ fp.1 = [] then none
    else
      match parseExpTail fp.2 with
      | some e =>
        some (sp.1 * (digitsToNat (ip.1 ++ fp.1) : ℚ) * (10 : ℚ) ^ (e - (fp.1.length : Int)))
      | none => none
  | rest2 =>
    if ip.1 = [] then none
    else
      match parseExpTail rest2 with
      | some e => some (sp.1 * (digitsToNat ip.1 : ℚ) * (10 : ℚ) ^ e)
      | none => none

/-- Model of `Decimal(str)` on finite numeric strings: leading/trailing
whitespace is stripped and underscores are removed, then the numeric syntax is
parsed; a failure models `decimal.InvalidOperation`.  The special values
`Infinity`/`NaN` accepted by `Decimal` are outside the model (no claim touches
them). -/
def parseDecimal (s : String) : Option ℚ :=
  parseDecCore ((pyStrip s).data.filter (fun c => c != '_'))

/-- One distinct error per Python exception raised by the loader:
`missingField f` is `ValueError("Missing <f> field")`, `malformedDate` the
`ValueError` of `date.fromisoformat`, `malformedValue` the
`ValueError("Unable to parse ...")` for a wrongly-typed field,
`invalidOperation` the `decimal.InvalidOperation` of `Decimal(str)`, and
`attributeError` the `AttributeError` of `None.strip()`. -/
inductive LoadError where
  | missingField (field : String)
  | malformedDate (value : String)
  | malformedValue
  | invalidOperation
  | attributeError
  deriving DecidableEq

/-- A Python scalar as it reaches the loader's coercion helpers: a string, a
number (`int`/`float`/`Decimal`, all carried exactly), or a typed date.
`str()` of a number is modelled by the rational's canonical print; none of the
theorems depend on it. -/
inductive PyVal where
  | str (s : String)
  | num (q : ℚ)
  | dateVal (d : Date)
  deriving DecidableEq

/-- Python `str` on a scalar. -/
def pyStr : PyVal → String
  | .str s => s
  | .num q => toString q
  | .dateVal d => d.isoformat

/-- Python `str` on a value that may be `None` (`str(None) = "None"`). -/
def pyStrOrNone : Option PyVal → String
  | none => "None"
  | some v => pyStr v

/-- Model of `data_sources._coerce_date`: `None` (field absent or null) is a
missing field; a typed date passes through; a string is stripped and parsed as
ISO; anything else is unparseable. -/
def coerce_date (v : Option PyVal) : Except LoadError Date :=
  match v with
  | none => .error (.missingField ("date"))
  | some (.dateVal d) => .ok d
  | some (.str s) =>
    match parseIsoDate (pyStrip s) with
    | some d => .ok d
    | none => .error (.malformedDate s)
  | some (.num _) => .error .malformedValue

/-- Model of `data_sources._coerce_amount`: `None` is a missing field; a
`Decimal`/`int`/`float` is taken exactly; a string goes through
`Decimal(str(...))`; anything else is unparseable. -/
def coerce_amount (v : Option PyVal) : Except LoadError ℚ :=
  match v with
  | none => .error (.missingField ("amount"))
  | some (.num q) => .ok q
  | some (.str s) =>
    match parseDecimal s with
    | some q => .ok q
    | none => .error .invalidOperation
  | some (.dateVal _) => .error .malformedValue

/-- Model of `data_sources._normalise_category`:
`value.strip() or "Uncategorised"`. -/
def normalise_category (s : String) : String :=
  if pyStrip s = "" then "Uncategorised" else pyStrip s

/-- The canonical in-memory transaction (`models.Transaction`). -/
structure Transaction where
  occurred_on : Date
  category : String
  description : String
  amount : ℚ
  deriving DecidableEq

/-- The derived summary (`models.ReportSummary`).  The two dicts are
association lists in their Python iteration order. -/
structure ReportSummary where
  transactions : List Transaction
  total_amount : ℚ
  totals_by_category : List (String × ℚ)
  totals_by_day : List (Date × ℚ)
  deriving DecidableEq

/-- One object of the JSON input list.  For each field, `none` means the key is
absent from the object, `some none` means the key is bound to JSON `null`
(Python `None`), and `some (some v)` is a scalar value. -/
structure JsonRecord where
  date : Option (Option PyVal)
  category : Option (Option PyVal)
  description : Option (Option PyVal)
  amount : Option (Option PyVal)
  deriving DecidableEq

/-- Python `mapping.get(key)`: an absent key and a `None` value both give
`None`. -/
def jget (f : Option (Option PyVal)) : Option PyVal :=
  match f with
  | none => none
  | some x => x

/-- Python `mapping.get(key, default)`. -/
def jgetD (f : Option (Option PyVal)) (d : Option PyVal) : Option PyVal :=
  match f with
  | none => d
  | some x => x

/-- One JSON record through `_load_json`'s coercions followed by
`Transaction.from_mapping` (which receives a typed date, a normalised category
string, a description string and a `Decimal`, so its own type dispatch cannot
fail).  The record's fields are evaluated in the source's dict-literal order
(date, category, description, amount); category and description cannot raise
on the JSON path, so matching date then amount preserves the error order. -/
def processJsonRecord (r : JsonRecord) : Except LoadError Transaction :=
  match coerce_date (jget r.date) with
  | .error e => .error e
  | .ok d =>
    match coerce_amount (jget r.amount) with
    | .error e => .error e
    | .ok a =>
      .ok { occurred_on := d
            category := normalise_category (pyStrOrNone (jgetD r.category (some (.str ("")))))
            description := pyStrOrNone (jgetD r.description (some (.str (""))))
            amount := a }

/-- One row of the CSV input as produced by `csv.DictReader`: for each field,
`none` means the column is absent from the header, `some none` means the data
line was shorter than the header so `DictReader` filled the cell with its
`restval` default `None`, and `some (some s)` is the cell's text. -/
structure CsvRow where
  date : Option (Option String)
  category : Option (Option String)
  description : Option (Option String)
  amount : Option (Option String)
  deriving DecidableEq

/-- Python `row.get(key)` on a CSV row. -/
def cget (f : Option (Option String)) : Option String :=
  match f with
  | none => none
  | some x => x

/-- Python `row.get(key, default)` on a CSV row: note a `None` cell is
returned as-is, not replaced by the default. -/
def cgetD (f : Option (Option String)) (d : String) : Option String :=
  match f with
  | none => some d
  | some x => x

/-- Python `str` applied to a CSV cell that may be `None`. -/
def csvStr : Option String → String
  | none => "None"
  | some s => s

/-- `_normalise_category(row.get("category", ""))` on the CSV path: a `None`
cell (short data row) reaches `None.strip()` and raises `AttributeError`. -/
def csvCategory : Option String → Except LoadError String
  | none => .error .attributeError
  | some s => .ok (normalise_category s)

/-- One CSV row through `_load_csv`'s coercions followed by
`Transaction.from_mapping`.  Fields are evaluated in the source's dict-literal
order: date, category, description, amount. -/
def processCsvRow (r : CsvRow) : Except LoadError Transaction :=
  match coerce_date ((cget r.date).map PyVal.str) with
  | .error e => .error e
  | .ok d =>
    match csvCategory (cgetD r.category ("")) with
    | .error e => .error e
    | .ok c =>
      match coerce_amount ((cget r.amount).map PyVal.str) with
      | .error e => .error e
      | .ok a =>
        .ok { occurred_on := d
              category := c
              description := csvStr (cgetD r.description (""))
              amount := a }

/-- The list comprehension at the end of `load_transactions`, driving the lazy
per-record loader generator: records are processed in order and the first
exception aborts the whole load, so no partial transaction list escapes. -/
def loadWith {ρ : Type} (coe : ρ → Except LoadError Transaction) :
    List ρ → Except LoadError (List Transaction)
  | [] => .ok []
  | r :: rs =>
    match coe r with
    | .error e => .error e
    | .ok t =>
      match loadWith coe rs with
      | .error e => .error e
      | .ok ts => .ok (t :: ts)

/-- `load_transactions` on a JSON input (after `json.load` has produced the
top-level list of objects). -/
def load_transactions_json (rs : List JsonRecord) : Except LoadError (List Transaction) :=
  loadWith processJsonRecord rs

/-- `load_transactions` on a CSV input (after `csv.DictReader` has produced
the row mappings). -/
def load_transactions_csv (rs : List CsvRow) : Except LoadError (List Transaction) :=
  loadWith processCsvRow rs

/-- Is an `Except` a success? -/
def exceptIsOk {ε α : Type} : Except ε α → Bool
  | .ok _ => true
  | .error _ => false

/-- `defaultdict(Decimal)` update `m[k] += v`: adds in place for a present key
(keeping its insertion position) and appends a fresh key at the end. -/
def addToKey {κ : Type} [DecidableEq κ] (k : κ) (v : ℚ) : List (κ × ℚ) → List (κ × ℚ)
  | [] => [(k, v)]
  | (k', v') :: rest =>
    if k = k' then (k', v' + v) :: rest else (k', v') :: addToKey k v rest

/-- The accumulation loop of `summarize_transactions` for one of the two
grouping keys. -/
def groupTotals {κ : Type} [DecidableEq κ] (key : Transaction → κ)
    (ts : List Transaction) : List (κ × ℚ) :=
  ts.foldl (fun m t => addToKey (key t) t.amount m) []

/-- Insert `x` into `l` before the first element `y` with `le x y`;
the building block of a stable ascending sort. -/
def insertSorted {α : Type} (le : α → α → Bool) (x : α) : List α → List α
  | [] => [x]
  | y :: ys => if le x y then x :: y :: ys else y :: insertSorted le x ys

/-- Stable ascending sort, modelling Python's `sorted`. -/
def sortBy {α : Type} (le : α → α → Bool) (l : List α) : List α :=
  l.foldr (insertSorted le) []

/-- Comparator for `sorted(totals_by_category.items())`: tuples are compared
lexicographically, and the keys of a dict are distinct, so only the string
keys decide. -/
def catLeB (a b : String × ℚ) : Bool := strLeB a.1 b.1

/-- Comparator for `sorted(totals_by_day.items())` (distinct date keys). -/
def dayLeB (a b : Date × ℚ) : Bool := dateLeB a.1 b.1

/-- Model of `summary.summarize_transactions`. -/
def summarize_transactions (ts : List Transaction) : ReportSummary :=
  if ts = [] then
    { transactions := [], total_amount := 0, totals_by_category := [], totals_by_day := [] }
  else
    { transactions := ts
      total_amount := ts.foldl (fun acc t => acc + t.amount) 0
      totals_by_category := sortBy catLeB (groupTotals (fun t => t.category) ts)
      totals_by_day := sortBy dayLeB (groupTotals (fun t => t.occurred_on) ts) }

/-- String image of an exact decimal, standing in for `str(Decimal)`.  Python
preserves the stored scale (e.g. `"1400.00"`); the rational model prints the
canonical value.  No theorem below inspects these strings' contents. -/
def decStr (q : ℚ) : String := toString q

/-- One transaction of `ReportSummary.as_dict`'s `transactions` list. -/
structure TransactionDict where
  date : String
  category : String
  description : String
  amount : String
  deriving DecidableEq

/-- The JSON-serialisable mapping returned by `ReportSummary.as_dict`. -/
structure SummaryDict where
  transactions : List TransactionDict
  total_amount : String
  totals_by_category : List (String × String)
  totals_by_day : List (String × String)
  deriving DecidableEq

/-- The per-transaction record built by `as_dict`. -/
def transactionDict (t : Transaction) : TransactionDict :=
  { date := t.occurred_on.isoformat
    category := t.category
    description := t.description
    amount := decStr t.amount }

/-- Model of `models.ReportSummary.as_dict` (the structured-data renderer):
transactions in input order, and both totals maps re-sorted by key. -/
def ReportSummary.as_dict (s : ReportSummary) : SummaryDict :=
  { transactions := s.transactions.map transactionDict
    total_amount := decStr s.total_amount
    totals_by_category := (sortBy catLeB s.totals_by_category).map (fun p => (p.1, decStr p.2))
    totals_by_day := (sortBy dayLeB s.totals_by_day).map (fun p => (p.1.isoformat, decStr p.2)) }

def htmlPrefix : String :=
  "<!DOCTYPE html>\n"
  ++ "<html lang=\"en\">\n"
  ++ "<head>\n"
  ++ "  <meta charset=\"utf-8\">\n"
  ++ "  <title>Financial Summary</title>\n"
  ++ "  <style>\n"
  ++ "    :root \x7b\n"
  ++ "      --brand-bg: #0f172a;\n"
  ++ "      --brand-surface: #0b1220;\n"
  ++ "      --brand-primary: #1e3a8a;\n"
  ++ "      --brand-accent: #38bdf8;\n"
  ++ "      --brand-surface-2: #f8fafc;\n"
  ++ "      --text-strong: #111827;\n"
  ++ "      --text: #1f2937;\n"
  ++ "      --text-subtle: #64748b;\n"
  ++ "      --line: #e2e8f0;\n"
  ++ "      --surface: #ffffff;\n"
  ++ "      --shadow-lg: 0 18px 40px rgba(15, 23, 42, .18);\n"
  ++ "      --shadow-md: 0 12px 24px rgba(15, 23, 42, .12);\n"
  ++ "      --radius-xl: 18px;\n"
  ++ "    \x7d\n"
  ++ "    * \x7b box-sizing: border-box; \x7d\n"
  ++ "    body \x7b\n"
  ++ "      margin: 0;\n"
  ++ "      font-family: \x27Inter\x27, \x27Segoe UI\x27, system-ui, -apple-system, sans-serif;\n"
  ++ "      background:\n"
  ++ "        radial-gradient(1200px 600px at -10% -10%, rgba(30, 58, 138, .20), transparent 60%),\n"
  ++ "        radial-gradient(900px 600px at 110% -20%, rgba(14, 116, 144, .18), transparent 55%),\n"
  ++ "        linear-gradient(180deg, var(--brand-surface), #0b1022 65%);\n"
  ++ "      color: var(--text);\n"
  ++ "      -webkit-font-smoothing: antialiased;\n"
  ++ "    \x7d\n"
  ++ "    .wrap \x7b max-width: 1100px; margin: 40px auto; padding: 0 24px; \x7d\n"
  ++ "    .shell \x7b\n"
  ++ "      background: var(--surface);\n"
  ++ "      border: 1px solid rgba(226, 232, 240, .9);\n"
  ++ "      border-radius: 26px;\n"
  ++ "      box-shadow: var(--shadow-lg);\n"
  ++ "      overflow: hidden;\n"
  ++ "    \x7d\n"
  ++ "    .hero \x7b\n"
  ++ "      background: linear-gradient(160deg, rgba(255,255,255,.98), rgba(241,245,249,.92));\n"
  ++ "      padding: 48px 40px;\n"
  ++ "      display: grid;\n"
  ++ "      gap: 18px;\n"
  ++ "      text-align: center;\n"
  ++ "      border-bottom: 1px solid var(--line);\n"
  ++ "    \x7d\n"
  ++ "    .hero__title \x7b\n"
  ++ "      margin: 0;\n"
  ++ "      font-size: 32px;\n"
  ++ "      font-weight: 800;\n"
  ++ "      color: var(--text-strong);\n"
  ++ "      letter-spacing: -0.02em;\n"
  ++ "    \x7d\n"
  ++ "    .hero__meta \x7b\n"
  ++ "      margin: 4px 0;\n"
  ++ "      color: var(--text-subtle);\n"
  ++ "      font-size: 14px;\n"
  ++ "    \x7d\n"
  ++ "    .hero__footer \x7b\n"
  ++ "      display: flex;\n"
  ++ "      justify-content: center;\n"
  ++ "      gap: 12px;\n"
  ++ "      flex-wrap: wrap;\n"
  ++ "      font-size: 12px;\n"
  ++ "      color: var(--text-subtle);\n"
  ++ "    \x7d\n"
  ++ "    .hero__badge \x7b\n"
  ++ "      background: rgba(30, 64, 175, .08);\n"
  ++ "      color: var(--brand-primary);\n"
  ++ "      border-radius: 999px;\n"
  ++ "      padding: 6px 14px;\n"
  ++ "      font-weight: 600;\n"
  ++ "      letter-spacing: .02em;\n"
  ++ "    \x7d\n"
  ++ "    .section \x7b padding: 32px 40px; \x7d\n"
  ++ "    .kpi-section \x7b background: rgba(248, 250, 252, .75); \x7d\n"
  ++ "    .kpi-grid \x7b\n"
  ++ "      display: grid;\n"
  ++ "      gap: 18px;\n"
  ++ "      grid-template-columns: repeat(auto-fit, minmax(220px, 1fr));\n"
  ++ "    \x7d\n"
  ++ "    .kpi-card \x7b\n"
  ++ "      background: var(--surface);\n"
  ++ "      border: 1px solid rgba(226, 232, 240, .9);\n"
  ++ "      border-radius: 20px;\n"
  ++ "      padding: 20px;\n"
  ++ "      box-shadow: var(--shadow-md);\n"
  ++ "      text-align: left;\n"
  ++ "    \x7d\n"
  ++ "    .kpi-card h3 \x7b\n"
  ++ "      margin: 0 0 12px 0;\n"
  ++ "      font-size: 15px;\n"
  ++ "      letter-spacing: .02em;\n"
  ++ "      text-transform: uppercase;\n"
  ++ "      color: var(--text-subtle);\n"
  ++ "    \x7d\n"
  ++ "    .kpi-card__value \x7b\n"
  ++ "      margin: 0;\n"
  ++ "      font-size: 26px;\n"
  ++ "      font-weight: 800;\n"
  ++ "      color: var(--brand-primary);\n"
  ++ "    \x7d\n"
  ++ "    .kpi-card__meta \x7b\n"
  ++ "      margin: 10px 0 0 0;\n"
  ++ "      color: var(--text-subtle);\n"
  ++ "      font-size: 13px;\n"
  ++ "      line-height: 1.4;\n"
  ++ "    \x7d\n"
  ++ "    .analysis-card \x7b\n"
  ++ "      margin-bottom: 32px;\n"
  ++ "    \x7d\n"
  ++ "    .analysis-card h2 \x7b\n"
  ++ "      margin: 0;\n"
  ++ "      font-size: 20px;\n"
  ++ "      color: var(--text-strong);\n"
  ++ "    \x7d\n"
  ++ "    .analysis-card p \x7b\n"
  ++ "      margin: 6px 0 0 0;\n"
  ++ "      color: var(--text-subtle);\n"
  ++ "    \x7d\n"
  ++ "    .analysis-grid \x7b\n"
  ++ "      margin-top: 24px;\n"
  ++ "      display: grid;\n"
  ++ "      gap: 16px;\n"
  ++ "      grid-template-columns: repeat(auto-fit, minmax(200px, 1fr));\n"
  ++ "    \x7d\n"
  ++ "    .insight-card \x7b\n"
  ++ "      background: var(--brand-surface-2);\n"
  ++ "      border: 1px solid rgba(226, 232, 240, .9);\n"
  ++ "      border-left: 4px solid var(--brand-primary);\n"
  ++ "      border-radius: 16px;\n"
  ++ "      padding: 18px 20px;\n"
  ++ "      box-shadow: var(--shadow-md);\n"
  ++ "    \x7d\n"
  ++ "    .insight-card h3 \x7b\n"
  ++ "      margin: 0;\n"
  ++ "      font-size: 15px;\n"
  ++ "      color: var(--text-subtle);\n"
  ++ "      text-transform: uppercase;\n"
  ++ "      letter-spacing: .08em;\n"
  ++ "    \x7d\n"
  ++ "    .insight-card__value \x7b\n"
  ++ "      margin: 12px 0 0 0;\n"
  ++ "      font-size: 24px;\n"
  ++ "      font-weight: 800;\n"
  ++ "      color: var(--text-strong);\n"
  ++ "    \x7d\n"
  ++ "    .insight-card__meta \x7b\n"
  ++ "      margin: 6px 0 0 0;\n"
  ++ "      color: var(--text-subtle);\n"
  ++ "      font-size: 13px;\n"
  ++ "      line-height: 1.5;\n"
  ++ "    \x7d\n"
  ++ "    .data-section \x7b\n"
  ++ "      background: rgba(248, 250, 252, .6);\n"
  ++ "    \x7d\n"
  ++ "    .card \x7b\n"
  ++ "      background: var(--surface);\n"
  ++ "      border: 1px solid rgba(226, 232, 240, .95);\n"
  ++ "      border-radius: 20px;\n"
  ++ "      box-shadow: var(--shadow-md);\n"
  ++ "      padding: 0;\n"
  ++ "      overflow: hidden;\n"
  ++ "    \x7d\n"
  ++ "    .card--bordered \x7b\n"
  ++ "      border-left: 5px solid var(--brand-primary);\n"
  ++ "    \x7d\n"
  ++ "    .card__header \x7b\n"
  ++ "      display: flex;\n"
  ++ "      justify-content: space-between;\n"
  ++ "      align-items: flex-start;\n"
  ++ "      gap: 20px;\n"
  ++ "      padding: 22px 26px 0 26px;\n"
  ++ "    \x7d\n"
  ++ "    .card__header h2 \x7b\n"
  ++ "      margin: 0;\n"
  ++ "      font-size: 20px;\n"
  ++ "      color: var(--text-strong);\n"
  ++ "    \x7d\n"
  ++ "    .card__header p \x7b\n"
  ++ "      margin: 6px 0 0 0;\n"
  ++ "      color: var(--text-subtle);\n"
  ++ "      font-size: 14px;\n"
  ++ "    \x7d\n"
  ++ "    .card__body \x7b padding: 22px 26px 28px 26px; \x7d\n"
  ++ "    .chart-badge \x7b\n"
  ++ "      display: inline-flex;\n"
  ++ "      align-items: center;\n"
  ++ "      justify-content: center;\n"
  ++ "      background: rgba(30, 64, 175, .1);\n"
  ++ "      color: var(--brand-primary);\n"
  ++ "      border-radius: 999px;\n"
  ++ "      padding: 6px 14px;\n"
  ++ "      font-size: 12px;\n"
  ++ "      font-weight: 700;\n"
  ++ "      letter-spacing: .08em;\n"
  ++ "      text-transform: uppercase;\n"
  ++ "    \x7d\n"
  ++ "    .data-table \x7b\n"
  ++ "      width: 100%;\n"
  ++ "      border-collapse: collapse;\n"
  ++ "      margin-top: 12px;\n"
  ++ "      font-size: 14px;\n"
  ++ "    \x7d\n"
  ++ "    .data-table thead th \x7b\n"
  ++ "      text-align: left;\n"
  ++ "      padding: 12px 16px;\n"
  ++ "      background: rgba(15, 23, 42, .04);\n"
  ++ "      color: var(--text-subtle);\n"
  ++ "      font-weight: 700;\n"
  ++ "      letter-spacing: .03em;\n"
  ++ "      text-transform: uppercase;\n"
  ++ "    \x7d\n"
  ++ "    .data-table tbody td \x7b\n"
  ++ "      padding: 12px 16px;\n"
  ++ "      border-bottom: 1px solid rgba(226, 232, 240, .8);\n"
  ++ "    \x7d\n"
  ++ "    .data-table tbody tr:last-child td \x7b border-bottom: none; \x7d\n"
  ++ "    .data-table .numeric \x7b text-align: right; font-variant-numeric: tabular-nums; \x7d\n"
  ++ "    .pill \x7b\n"
  ++ "      display: inline-block;\n"
  ++ "      padding: 6px 12px;\n"
  ++ "      border-radius: 999px;\n"
  ++ "      font-size: 12px;\n"
  ++ "      font-weight: 700;\n"
  ++ "      letter-spacing: .04em;\n"
  ++ "      text-transform: uppercase;\n"
  ++ "    \x7d\n"
  ++ "    .pill--positive \x7b background: rgba(34, 197, 94, .14); color: #047857; \x7d\n"
  ++ "    .pill--negative \x7b background: rgba(239, 68, 68, .12); color: #b91c1c; \x7d\n"
  ++ "    .pill--neutral \x7b background: rgba(148, 163, 184, .18); color: #475569; \x7d\n"
  ++ "    .empty-state \x7b\n"
  ++ "      margin: 0;\n"
  ++ "      padding: 18px;\n"
  ++ "      background: rgba(226, 232, 240, .35);\n"
  ++ "      border-radius: 16px;\n"
  ++ "      color: var(--text-subtle);\n"
  ++ "      text-align: center;\n"
  ++ "    \x7d\n"
  ++ "    @media (max-width: 720px) \x7b\n"
  ++ "      .section \x7b padding: 28px 20px; \x7d\n"
  ++ "      .hero \x7b padding: 40px 24px; \x7d\n"
  ++ "      .card__header \x7b flex-direction: column; align-items: flex-start; \x7d\n"
  ++ "    \x7d\n"
  ++ "  </style>\n"
  ++ "</head>\n"
  ++ "<body>\n"
  ++ "  <div class=\"wrap\">\n"
  ++ "    <div class=\"shell\">\n"
  ++ "      <header class=\"hero\" role=\"banner\">\n"
  ++ "        <div>\n"
  ++ "          <p class=\"hero__meta\">Generated \x7bgenerated_on\x7d</p>\n"
  ++ "          <h1 class=\"hero__title\">Financial Performance Report</h1>\n"

def htmlMid1 : String :=
  "        </div>\n"
  ++ "        <div class=\"hero__footer\">\n"
  ++ "          <span class=\"hero__badge\">Automated insights</span>\n"
  ++ "          <span class=\"hero__badge\">Ready for clients</span>\n"
  ++ "        </div>\n"
  ++ "      </header>\n"
  ++ "      <section class=\"section kpi-section\" aria-label=\"Key financial metrics\">\n"
  ++ "        <div class=\"kpi-grid\">\n"

def htmlMid2 : String :=
  "        </div>\n"
  ++ "      </section>\n"
  ++ "      <section class=\"section\" aria-labelledby=\"analysis-summary-heading\">\n"
  ++ "        <div class=\"analysis-card\">\n"
  ++ "          <h2 id=\"analysis-summary-heading\">Enhanced Analysis Summary</h2>\n"
  ++ "          <p>A quick scan of structural health, activity mix and pacing.</p>\n"
  ++ "        </div>\n"
  ++ "        <div class=\"analysis-grid\">\n"

def htmlMid3 : String :=
  "        </div>\n"
  ++ "      </section>\n"

def htmlSuffix : String :=
  "    </div>\n"
  ++ "  </div>\n"
  ++ "</body>\n"
  ++ "</html>\n"

def catSectionEmpty : String :=
  "<section class=\"section data-section\">\n"
  ++ "  <div class=\"card card--bordered\">\n"
  ++ "    <div class=\"card__header\">\n"
  ++ "      <div><h2>Category Performance</h2><p>Totals grouped by account classification.</p></div>\n"
  ++ "    </div>\n"
  ++ "    <div class=\"card__body\">\n"
  ++ "      <p class=\"empty-state\">No category totals available.</p>\n"
  ++ "    </div>\n"
  ++ "  </div>\n"
  ++ "</section>"

def dailySectionEmpty : String :=
  "<section class=\"section data-section\">\n"
  ++ "  <div class=\"card card--bordered\">\n"
  ++ "    <div class=\"card__header\">\n"
  ++ "      <div><h2>Daily Totals</h2><p>Trend of overall movement across the period.</p></div>\n"
  ++ "    </div>\n"
  ++ "    <div class=\"card__body\">\n"
  ++ "      <p class=\"empty-state\">No daily totals available.</p>\n"
  ++ "    </div>\n"
  ++ "  </div>\n"
  ++ "</section>"

def txnSectionEmpty : String :=
  "<section class=\"section data-section\">\n"
  ++ "  <div class=\"card card--bordered\">\n"
  ++ "    <div class=\"card__header\">\n"
  ++ "      <div><h2>Transactions</h2><p>Itemised view of the activity powering this report.</p></div>\n"
  ++ "    </div>\n"
  ++ "    <div class=\"card__body\">\n"
  ++ "      <p class=\"empty-state\">No transactions supplied.</p>\n"
  ++ "    </div>\n"
  ++ "  </div>\n"
  ++ "</section>"

def catSectionPre : String :=
  "<section class=\"section data-section\">\n"
  ++ "  <div class=\"card card--bordered\">\n"
  ++ "    <div class=\"card__header\">\n"
  ++ "      <div>\n"
  ++ "        <h2>Category Performance</h2>\n"
  ++ "        <p>How each category contributed to the reporting period.</p>\n"
  ++ "      </div>\n"
  ++ "      <span class=\"chart-badge\" aria-hidden=\"true\">table</span>\n"
  ++ "    </div>\n"
  ++ "    <div class=\"card__body\">\n"
  ++ "      <table class=\"data-table\">\n"
  ++ "        <thead><tr><th>Category</th><th class=\"numeric\">Total</th><th>Type</th></tr></thead>\n"
  ++ "        <tbody>\n"

def catSectionPost : String :=
  "        </tbody>\n"
  ++ "      </table>\n"
  ++ "    </div>\n"
  ++ "  </div>\n"
  ++ "</section>"

def dailySectionPre : String :=
  "<section class=\"section data-section\">\n"
  ++ "  <div class=\"card card--bordered\">\n"
  ++ "    <div class=\"card__header\">\n"
  ++ "      <div>\n"
  ++ "        <h2>Daily Totals</h2>\n"
  ++ "        <p>Momentum of the business day by day.</p>\n"
  ++ "      </div>\n"
  ++ "      <span class=\"chart-badge\" aria-hidden=\"true\">trend</span>\n"
  ++ "    </div>\n"
  ++ "    <div class=\"card__body\">\n"
  ++ "      <table class=\"data-table\">\n"
  ++ "        <thead><tr><th>Date</th><th class=\"numeric\">Total</th></tr></thead>\n"
  ++ "        <tbody>\n"

def dailySectionPost : String :=
  "        </tbody>\n"
  ++ "      </table>\n"
  ++ "    </div>\n"
  ++ "  </div>\n"
  ++ "</section>"

def txnSectionPre : String :=
  "<section class=\"section data-section\">\n"
  ++ "  <div class=\"card card--bordered\">\n"
  ++ "    <div class=\"card__header\">\n"
  ++ "      <div>\n"
  ++ "        <h2>Transactions</h2>\n"
  ++ "        <p>Itemised view of the activity powering this report.</p>\n"
  ++ "      </div>\n"
  ++ "      <span class=\"chart-badge\" aria-hidden=\"true\">ledger</span>\n"
  ++ "    </div>\n"
  ++ "    <div class=\"card__body\">\n"
  ++ "      <table class=\"data-table\">\n"
  ++ "        <thead><tr><th>Date</th><th>Category</th><th>Description</th><th class=\"numeric\">Amount</th></tr></thead>\n"
  ++ "        <tbody>\n"

def txnSectionPost : String :=
  "        </tbody>\n"
  ++ "      </table>\n"
  ++ "    </div>\n"
  ++ "  </div>\n"
  ++ "</section>"

/-- Floor of a rational, as an integer. -/
def floorQ (q : ℚ) : Int := Int.fdiv q.num (q.den : Int)

/-- Round a rational to the nearest integer with ties to even, the
`ROUND_HALF_EVEN` rounding of the default `decimal` context used both by
`quantize(Decimal("0.01"))` and by `format` on a `Decimal`. -/
def roundHalfEven (q : ℚ) : Int :=
  let f := floorQ q
  let r := q - (f : ℚ)
  if r < 1/2 then f
  else if 1/2 < r then f + 1
  else if f % 2 = 0 then f else f + 1

/-- Insert a comma after every third character of a reversed digit list. -/
def insertCommasRev : List Char → List Char
  | a :: b :: c :: d :: rest => a :: b :: c :: ',' :: insertCommasRev (d :: rest)
  | l => l

/-- Thousands separators of the `,` format specifier. -/
def groupThousands (s : String) : String :=
  String.mk (insertCommasRev s.data.reverse).reverse

/-- The nested `format_currency` helper of `build_html_report`:
`f"${value.quantize(Decimal('0.01')):,.2f}"` — quantize to cents (half-even),
then dollar sign, sign, thousands separators, and two fractional digits. -/
def format_currency (q : ℚ) : String :=
  let cents := roundHalfEven (q * 100)
  let sign := if cents < 0 then "-" else ""
  let a := cents.natAbs
  "$" ++ sign ++ groupThousands (toString (a / 100)) ++ "." ++ padNum 2 (a % 100)

/-- Python `f"{q:.2f}"` on a `Decimal`: two fractional digits, half-even, no
grouping. -/
def formatFixed2 (q : ℚ) : String :=
  let cents := roundHalfEven (q * 100)
  let sign := if cents < 0 then "-" else ""
  let a := cents.natAbs
  sign ++ toString (a / 100) ++ "." ++ padNum 2 (a % 100)

/-- The derived headline metrics computed by `build_html_report` and not
stored on the summary. -/
structure HtmlKpis where
  total_revenue : ℚ
  total_expenses : ℚ
  gross_profit : ℚ
  net_income : ℚ
  category_count : Nat
  revenue_category_count : Nat
  expense_category_count : Nat
  neutral_category_count : Nat
  transaction_count : Nat
  day_count : Nat
  average_daily_total : ℚ
  average_transaction : ℚ
  deriving DecidableEq

/-- The KPI computation at the head of `templates.build_html_report`
(source lines 44–74).  The generator `sum`s with `start=Decimal("0")` are left
folds over the dict's values in iteration order. -/
def computeKpis (s : ReportSummary) : HtmlKpis :=
  let vals := s.totals_by_category.map Prod.snd
  let total_revenue := (vals.filter (fun v => decide (0 < v))).foldl (fun a v => a + v) 0
  let total_expenses_signed := (vals.filter (fun v => decide (v < 0))).foldl (fun a v => a + v) 0
  let total_expenses := -total_expenses_signed
  let gross_profit := total_revenue - total_expenses
  let net_income := s.total_amount
  let category_count := s.totals_by_category.length
  let revenue_category_count := (vals.filter (fun v => decide (0 < v))).length
  let expense_category_count := (vals.filter (fun v => decide (v < 0))).length
  let neutral_category_count := category_count - revenue_category_count - expense_category_count
  let transaction_count := s.transactions.length
  let day_count := s.totals_by_day.length
  let average_daily_total := if day_count = 0 then 0 else s.total_amount / (day_count : ℚ)
  let average_transaction :=
    if transaction_count = 0 then 0
    else (s.transactions.foldl (fun a t => a + t.amount) 0) / (transaction_count : ℚ)
  { total_revenue := total_revenue
    total_expenses := total_expenses
    gross_profit := gross_profit
    net_income := net_income
    category_count := category_count
    revenue_category_count := revenue_category_count
    expense_category_count := expense_category_count
    neutral_category_count := neutral_category_count
    transaction_count := transaction_count
    day_count := day_count
    average_daily_total := average_daily_total
    average_transaction := average_transaction }

/-- One row of the HTML category table, with its Revenue/Expense/Neutral pill
chosen by the strict sign of the category total. -/
def categoryRow (p : String × ℚ) : String :=
  "        <tr>\n          <td>" ++ p.1
  ++ "</td>\n          <td class=\"numeric\">" ++ format_currency p.2
  ++ "</td>\n          <td><span class=\"pill "
  ++ (if 0 < p.2 then "pill--positive" else if p.2 < 0 then "pill--negative" else "pill--neutral")
  ++ "\">"
  ++ (if 0 < p.2 then "Revenue" else if p.2 < 0 then "Expense" else "Neutral")
  ++ "</span></td>\n        </tr>"

/-- One row of the HTML daily table. -/
def dailyRow (p : Date × ℚ) : String :=
  "        <tr>\n          <td>" ++ p.1.strftimeAbbrev
  ++ "</td>\n          <td class=\"numeric\">" ++ format_currency p.2
  ++ "</td>\n        </tr>"

/-- One row of the HTML transaction table. -/
def htmlTxnRow (t : Transaction) : String :=
  "        <tr>\n          <td>" ++ t.occurred_on.strftimeAbbrev
  ++ "</td>\n          <td>" ++ t.category
  ++ "</td>\n          <td>" ++ t.description
  ++ "</td>\n          <td class=\"numeric\">" ++ format_currency t.amount
  ++ "</td>\n        </tr>"

/-- The nested `build_category_section` of `build_html_report`: an empty-state
card when the category dict is empty, otherwise the table over the dict's
iteration order (not re-sorted). -/
def build_category_section (totals : List (String × ℚ)) : String :=
  if totals = [] then catSectionEmpty
  else
    catSectionPre ++ String.intercalate ("\n") (totals.map categoryRow) ++ "\n" ++ catSectionPost

/-- The nested `build_daily_section`: empty-state card when the day dict is
empty, otherwise the table over `sorted(totals_by_day.items())`. -/
def build_daily_section (totals : List (Date × ℚ)) : String :=
  if totals = [] then dailySectionEmpty
  else
    dailySectionPre ++ String.intercalate ("\n") ((sortBy dayLeB totals).map dailyRow)
    ++ "\n" ++ dailySectionPost

/-- The nested `build_transaction_section`: empty-state card when there are no
transactions, otherwise the table in input order. -/
def build_transaction_section (ts : List Transaction) : String :=
  if ts = [] then txnSectionEmpty
  else
    txnSectionPre ++ String.intercalate ("\n") (ts.map htmlTxnRow) ++ "\n" ++ txnSectionPost

/-- The four KPI cards of the hero grid, joined by newlines. -/
def kpiCards (total_revenue total_expenses gross_profit net_income : ℚ) : String :=
  String.intercalate ("\n")
    [ "        <article class=\"kpi-card\">\n          <h3>Total Revenue</h3>\n          <p class=\"kpi-card__value\">"
        ++ format_currency total_revenue
        ++ "</p>\n          <p class=\"kpi-card__meta\">Income across positive categories.</p>\n        </article>"
    , "        <article class=\"kpi-card\">\n          <h3>Total Expenses</h3>\n          <p class=\"kpi-card__value\">"
        ++ format_currency total_expenses
        ++ "</p>\n          <p class=\"kpi-card__meta\">Combined outflow from expense accounts.</p>\n        </article>"
    , "        <article class=\"kpi-card\">\n          <h3>Gross Profit</h3>\n          <p class=\"kpi-card__value\">"
        ++ format_currency gross_profit
        ++ "</p>\n          <p class=\"kpi-card__meta\">Revenue minus expense allocations.</p>\n        </article>"
    , "        <article class=\"kpi-card\">\n          <h3>Net Income</h3>\n          <p class=\"kpi-card__value\">"
        ++ format_currency net_income
        ++ "</p>\n          <p class=\"kpi-card__meta\">Overall movement for the reporting window.</p>\n        </article>" ]

/-- The five insight cards of the analysis grid, joined by newlines.  The meta
line of the last card is not an f-string in the source, so the text
`\x7btransaction_count\x7d` appears literally in the output. -/
def analysisCards (category_count revenue_category_count expense_category_count
    neutral_category_count : Nat) (average_daily_total average_transaction : ℚ) : String :=
  String.intercalate ("\n")
    [ "          <article class=\"insight-card\">\n            <h3>Category Coverage</h3>\n            <p class=\"insight-card__value\">"
        ++ toString category_count
        ++ "</p>\n            <p class=\"insight-card__meta\">Total categories monitored across the report.</p>\n          </article>"
    , "          <article class=\"insight-card\">\n            <h3>Revenue vs Expense Mix</h3>\n            <p class=\"insight-card__value\">"
        ++ toString revenue_category_count ++ ":" ++ toString expense_category_count
        ++ "</p>\n            <p class=\"insight-card__meta\">Distribution of income and expense groupings.</p>\n          </article>"
    , "          <article class=\"insight-card\">\n            <h3>Neutral Categories</h3>\n            <p class=\"insight-card__value\">"
        ++ toString neutral_category_count
        ++ "</p>\n            <p class=\"insight-card__meta\">Accounts that net to zero within the period.</p>\n          </article>"
    , "          <article class=\"insight-card\">\n            <h3>Average Daily Movement</h3>\n            <p class=\"insight-card__value\">"
        ++ format_currency average_daily_total
        ++ "</p>\n            <p class=\"insight-card__meta\">Total impact divided by the number of active days.</p>\n          </article>"
    , "          <article class=\"insight-card\">\n            <h3>Average Transaction</h3>\n            <p class=\"insight-card__value\">"
        ++ format_currency average_transaction
        ++ "</p>\n            <p class=\"insight-card__meta\">Mean amount across \x7btransaction_count\x7d transactions.</p>\n          </article>" ]

/-- Python `min(txn.occurred_on for txn in transactions)` (first minimum). -/
def minOccurred (t : Transaction) (rest : List Transaction) : Date :=
  rest.foldl (fun acc x => if dateLtB x.occurred_on acc then x.occurred_on else acc) t.occurred_on

/-- Python `max(txn.occurred_on for txn in transactions)` (first maximum). -/
def maxOccurred (t : Transaction) (rest : List Transaction) : Date :=
  rest.foldl (fun acc x => if dateLtB acc x.occurred_on then x.occurred_on else acc) t.occurred_on

/-- The hero reporting-period line: earliest–latest transaction date, or the
unavailable placeholder when there are no transactions (the `strftime` results
are non-empty strings, so Python's truthiness test on them reduces to the
list being non-empty). -/
def heroPeriod (ts : List Transaction) : String :=
  match ts with
  | [] => "<p class=\"hero__meta\">Reporting period unavailable.</p>"
  | t :: rest =>
    "<p class=\"hero__meta\">Reporting period: " ++ (minOccurred t rest).strftimeAbbrev
    ++ " – " ++ (maxOccurred t rest).strftimeAbbrev ++ "</p>"

set_option linter.unusedVariables false in
/-- Model of `templates.build_html_report`.  The only ambient state the source
reads is `date.today()`, threaded here as `today`; it feeds the local
`generated_on`, which the template line `Generated {generated_on}` — a plain
string, not an f-string — never interpolates, so the output does not depend
on it. -/
def build_html_report (today : Date) (s : ReportSummary) : String :=
  let k := computeKpis s
  let generated_on := today.strftimeAbbrev
  let hero_period := heroPeriod s.transactions
  let hero_transactions :=
    "<p class=\"hero__meta\">" ++ toString k.transaction_count ++ " transactions across "
    ++ toString k.category_count ++ " categories.</p>"
  let kpi_cards := kpiCards k.total_revenue k.total_expenses k.gross_profit k.net_income
  let analysis_cards :=
    analysisCards k.category_count k.revenue_category_count k.expense_category_count
      k.neutral_category_count k.average_daily_total k.average_transaction
  let body_sections :=
    String.intercalate ("\n")
      [ build_category_section s.totals_by_category
      , build_daily_section s.totals_by_day
      , build_transaction_section s.transactions ]
  htmlPrefix
  ++ "          " ++ hero_period ++ "\n"
  ++ "          " ++ hero_transactions ++ "\n"
  ++ htmlMid1
  ++ kpi_cards ++ "\n"
  ++ htmlMid2
  ++ analysis_cards ++ "\n"
  ++ htmlMid3
  ++ body_sections ++ "\n"
  ++ htmlSuffix

/-- The lightweight-markup `_render_overview` (markdown branch). -/
def render_overview (s : ReportSummary) : List String :=
  ["## Overview", "Total amount: **$" ++ formatFixed2 s.total_amount ++ "**"]

/-- The lightweight-markup `_render_category_table` (markdown branch), over
the category dict's iteration order. -/
def render_category_table (s : ReportSummary) : List String :=
  ["## Totals by category", "", "| Category | Total |", "| --- | ---: |"]
  ++ s.totals_by_category.map (fun p => "| " ++ p.1 ++ " | $" ++ formatFixed2 p.2 ++ " |")

/-- The lightweight-markup `_render_daily_totals` (markdown branch), over the
day dict's iteration order. -/
def render_daily_totals (s : ReportSummary) : List String :=
  ["## Totals by day", "", "| Date | Total |", "| --- | ---: |"]
  ++ s.totals_by_day.map (fun p => "| " ++ p.1.isoformat ++ " | $" ++ formatFixed2 p.2 ++ " |")

/-- One row of the markdown transaction table. -/
def markdownTxnRow (t : Transaction) : String :=
  "| " ++ t.occurred_on.isoformat ++ " | " ++ t.category ++ " | " ++ t.description
  ++ " | $" ++ formatFixed2 t.amount ++ " |"

/-- Model of `templates.build_markdown_report`: heading, then either the
single no-transactions notice, or overview, category table, daily table and
the itemised transaction table in input order, joined by newlines. -/
def build_markdown_report (s : ReportSummary) : String :=
  if s.transactions = [] then
    String.intercalate ("\n") ["# Financial Summary", "", "No transactions supplied."]
  else
    String.intercalate ("\n")
      (["# Financial Summary", ""]
        ++ render_overview s ++ [""]
        ++ render_category_table s ++ [""]
        ++ render_daily_totals s
        ++ ["", "## Transactions", "", "| Date | Category | Description | Amount |",
            "| --- | --- | --- | ---: |"]
        ++ s.transactions.map markdownTxnRow)

/-- Does `pat` occur at the head of `l`? -/
def headMatch : List Char → List Char → Bool
  | _, [] => true
  | [], _ :: _ => false
  | a :: as, b :: bs => a == b && headMatch as bs

/-- Does `pat` occur as a contiguous sublist of `l`? -/
def listHasSub : List Char → List Char → Bool
  | [], pat => headMatch [] pat
  | a :: rest, pat => headMatch (a :: rest) pat || listHasSub rest pat

/-- Does `pat` occur as a substring of `s`? -/
def strHasSub (s pat : String) : Bool := listHasSub s.data pat.data

/-- Sum of the values of an association list (the sum of a Python dict's
`values()`). -/
def sumValues {κ : Type} (m : List (κ × ℚ)) : ℚ := (m.map Prod.snd).sum

theorem foldl_add_amount (ts : List Transaction) (a : ℚ) :
    ts.foldl (fun acc t => acc + t.amount) a = a + (ts.map (fun t => t.amount)).sum := by
  induction ts generalizing a with
  | nil => simp
  | cons t ts ih => simp [ih]; ring

theorem foldl_add_vals (l : List ℚ) (a : ℚ) :
    l.foldl (fun x v => x + v) a = a + l.sum := by
  induction l generalizing a with
  | nil => simp
  | cons v l ih => simp [ih]; ring

theorem sumValues_addToKey {κ : Type} [DecidableEq κ] (k : κ) (v : ℚ) (m : List (κ × ℚ)) :
    sumValues (addToKey k v m) = sumValues m + v := by
  induction m with
  | nil => simp [addToKey, sumValues]
  | cons p m ih =>
    obtain ⟨k', v'⟩ := p
    by_cases h : k = k'
    · simp only [addToKey, if_pos h, sumValues, List.map_cons, List.sum_cons]
      ring
    · simp only [addToKey, if_neg h, sumValues, List.map_cons, List.sum_cons] at ih ⊢
      rw [ih]; ring

theorem sumValues_groupStep {κ : Type} [DecidableEq κ] (key : Transaction → κ)
    (ts : List Transaction) (m : List (κ × ℚ)) :
    sumValues (ts.foldl (fun m t => addToKey (key t) t.amount m) m)
      = sumValues m + (ts.map (fun t => t.amount)).sum := by
  induction ts generalizing m with
  | nil => simp
  | cons t ts ih =>
    simp only [List.foldl_cons, List.map_cons, List.sum_cons, ih, sumValues_addToKey]
    ring

theorem sumValues_groupTotals {κ : Type} [DecidableEq κ] (key : Transaction → κ)
    (ts : List Transaction) :
    sumValues (groupTotals key ts) = (ts.map (fun t => t.amount)).sum := by
  have h := sumValues_groupStep key ts []
  simpa [groupTotals, sumValues] using h

theorem insertSorted_perm {α : Type} (le : α → α → Bool) (x : α) (l : List α) :
    List.Perm (insertSorted le x l) (x :: l) := by
  induction l with
  | nil => simp [insertSorted]
  | cons y ys ih =>
    by_cases h : le x y
    · simp [insertSorted, h]
    · simp only [insertSorted, if_neg h]
      exact (ih.cons y).trans (List.Perm.swap x y ys)

theorem sortBy_perm {α : Type} (le : α → α → Bool) (l : List α) :
    List.Perm (sortBy le l) l := by
  induction l with
  | nil => simp [sortBy]
  | cons a l ih =>
    have hdef : sortBy le (a :: l) = insertSorted le a (sortBy le l) := rfl
    rw [hdef]
    exact (insertSorted_perm le a (sortBy le l)).trans (ih.cons a)

theorem mem_insertSorted {α : Type} (le : α → α → Bool) (x z : α) (l : List α) :
    z ∈ insertSorted le x l ↔ z = x ∨ z ∈ l := by
  rw [(insertSorted_perm le x l).mem_iff]
  simp

theorem pairwise_insertSorted {α : Type} (le : α → α → Bool)
    (htot : ∀ a b, le a b = true ∨ le b a = true)
    (htrans : ∀ a b c, le a b = true → le b c = true → le a c = true)
    (x : α) (l : List α)
    (h : l.Pairwise (fun a b => le a b = true)) :
    (insertSorted le x l).Pairwise (fun a b => le a b = true) := by
  induction l with
  | nil => simp [insertSorted]
  | cons y ys ih =>
    rcases List.pairwise_cons.mp h with ⟨hy, hys⟩
    by_cases hxy : le x y = true
    · simp only [insertSorted, hxy, if_true]
      refine List.pairwise_cons.mpr ⟨?_, h⟩
      intro z hz
      rcases List.mem_cons.mp hz with rfl | hz
      · exact hxy
      · exact htrans x y z hxy (hy z hz)
    · have hxy' : le x y = false := by
        cases hb : le x y
        · rfl
        · exact absurd hb hxy
      simp only [insertSorted, hxy', Bool.false_eq_true, if_false]
      refine List.pairwise_cons.mpr ⟨?_, ih hys⟩
      intro z hz
      rcases (mem_insertSorted le x z ys).mp hz with rfl | hz
      · rcases htot z y with h2 | h2
        · exact absurd h2 hxy
        · exact h2
      · exact hy z hz

theorem sortBy_pairwise {α : Type} (le : α → α → Bool)
    (htot : ∀ a b, le a b = true ∨ le b a = true)
    (htrans : ∀ a b c, le a b = true → le b c = true → le a c = true)
    (l : List α) :
    (sortBy le l).Pairwise (fun a b => le a b = true) := by
  induction l with
  | nil => simp [sortBy]
  | cons a l ih => exact pairwise_insertSorted le htot htrans a _ ih

theorem insertSorted_of_le {α : Type} (le : α → α → Bool) (x y : α) (ys : List α)
    (h : le x y = true) : insertSorted le x (y :: ys) = x :: y :: ys := by
  simp [insertSorted, h]

theorem sortBy_eq_self {α : Type} (le : α → α → Bool) (l : List α)
    (h : l.Pairwise (fun a b => le a b = true)) : sortBy le l = l := by
  induction l with
  | nil => rfl
  | cons a l ih =>
    rcases List.pairwise_cons.mp h with ⟨ha, hl⟩
    have hdef : sortBy le (a :: l) = insertSorted le a (sortBy le l) := rfl
    rw [hdef, ih hl]
    cases l with
    | nil => rfl
    | cons b bs => exact insertSorted_of_le le a b bs (ha b (by simp))

theorem keys_addToKey {κ : Type} [DecidableEq κ] (k : κ) (v : ℚ) (m : List (κ × ℚ)) :
    (addToKey k v m).map Prod.fst
      = if k ∈ m.map Prod.fst then m.map Prod.fst else m.map Prod.fst ++ [k] := by
  induction m with
  | nil => simp [addToKey]
  | cons p m ih =>
    obtain ⟨k', v'⟩ := p
    by_cases h : k = k'
    · simp [addToKey, h]
    · by_cases hm : k ∈ m.map Prod.fst
      · simp [addToKey, h, ih, hm]
      · simp [addToKey, h, ih, hm]

theorem nodup_keys_addToKey {κ : Type} [DecidableEq κ] (k : κ) (v : ℚ) (m : List (κ × ℚ))
    (h : (m.map Prod.fst).Nodup) : ((addToKey k v m).map Prod.fst).Nodup := by
  rw [keys_addToKey]
  by_cases hm : k ∈ m.map Prod.fst
  · simp [hm, h]
  · simp only [hm, if_false]
    refine List.Nodup.append h (List.nodup_singleton k) ?_
    intro a ha hak
    rw [List.mem_singleton] at hak
    subst hak
    exact hm ha

theorem nodup_keys_groupStep {κ : Type} [DecidableEq κ] (key : Transaction → κ)
    (ts : List Transaction) (m : List (κ × ℚ)) (h : (m.map Prod.fst).Nodup) :
    ((ts.foldl (fun m t => addToKey (key t) t.amount m) m).map Prod.fst).Nodup := by
  induction ts generalizing m with
  | nil => simpa
  | cons t ts ih => exact ih _ (nodup_keys_addToKey _ _ _ h)

theorem nodup_keys_groupTotals {κ : Type} [DecidableEq κ] (key : Transaction → κ)
    (ts : List Transaction) : ((groupTotals key ts).map Prod.fst).Nodup :=
  nodup_keys_groupStep key ts [] (by simp)

theorem lexLeB_total (as bs : List Char) : lexLeB as bs = true ∨ lexLeB bs as = true := by
  induction as generalizing bs with
  | nil => left; simp [lexLeB]
  | cons a as ih =>
    cases bs with
    | nil => right; simp [lexLeB]
    | cons b bs =>
      rcases lt_trichotomy a b with h | h | h
      · left; simp [lexLeB, if_pos h]
      · subst h
        rcases ih bs with h2 | h2
        · left; simp [lexLeB, lt_irrefl, h2]
        · right; simp [lexLeB, lt_irrefl, h2]
      · right; simp [lexLeB, if_pos h]

theorem lexLeB_trans (as : List Char) :
    ∀ bs cs, lexLeB as bs = true → lexLeB bs cs = true → lexLeB as cs = true := by
  induction as with
  | nil => intro bs cs _ _; simp [lexLeB]
  | cons a as ih =>
    intro bs cs hab hbc
    cases bs with
    | nil => simp [lexLeB] at hab
    | cons b bs =>
      cases cs with
      | nil => simp [lexLeB] at hbc
      | cons c cs =>
        simp only [lexLeB] at hab hbc ⊢
        rcases lt_trichotomy a b with h1 | h1 | h1
        · rcases lt_trichotomy b c with h2 | h2 | h2
          · rw [if_pos (h1.trans h2)]
          · subst h2; rw [if_pos h1]
          · rw [if_pos h2, if_neg (lt_asymm h2)] at hbc
            simp at hbc
        · subst h1
          rcases lt_trichotomy a c with h2 | h2 | h2
          · rw [if_pos h2]
          · subst h2
            rw [if_neg (lt_irrefl a)] at hab hbc ⊢
            rw [if_neg (lt_irrefl a)] at hab hbc ⊢
            exact ih _ _ hab hbc
          · rw [if_pos h2, if_neg (lt_asymm h2)] at hbc
            simp at hbc
        · rw [if_pos h1, if_neg (lt_asymm h1)] at hab
          simp at hab

theorem lexLtB_of_le_ne (as : List Char) :
    ∀ bs, lexLeB as bs = true → as ≠ bs → lexLtB as bs = true := by
  induction as with
  | nil =>
    intro bs _ hne
    cases bs with
    | nil => exact absurd rfl hne
    | cons b bs => simp [lexLtB]
  | cons a as ih =>
    intro bs hle hne
    cases bs with
    | nil => simp [lexLeB] at hle
    | cons b bs =>
      simp only [lexLeB] at hle
      simp only [lexLtB]
      rcases lt_trichotomy a b with h1 | h1 | h1
      · rw [if_pos h1]
      · subst h1
        rw [if_neg (lt_irrefl a)] at hle ⊢
        rw [if_neg (lt_irrefl a)] at hle ⊢
        have hne2 : as ≠ bs := by
          intro hcontra
          exact hne (by rw [hcontra])
        exact ih bs hle hne2
      · rw [if_pos h1, if_neg (lt_asymm h1)] at hle
        simp at hle

theorem strLeB_total (x y : String) : strLeB x y = true ∨ strLeB y x = true :=
  lexLeB_total x.data y.data

theorem strLeB_trans (x y z : String) (h1 : strLeB x y = true) (h2 : strLeB y z = true) :
    strLeB x z = true :=
  lexLeB_trans x.data y.data z.data h1 h2

theorem strLtB_of_le_ne (x y : String) (h : strLeB x y = true) (hne : x ≠ y) :
    strLtB x y = true := by
  refine lexLtB_of_le_ne x.data y.data h ?_
  intro hd
  apply hne
  cases x with
  | mk dx =>
    cases y with
    | mk dy => exact congrArg String.mk hd

theorem catLeB_total (a b : String × ℚ) : catLeB a b = true ∨ catLeB b a = true :=
  strLeB_total a.1 b.1

theorem catLeB_trans (a b c : String × ℚ) (h1 : catLeB a b = true) (h2 : catLeB b c = true) :
    catLeB a c = true :=
  strLeB_trans a.1 b.1 c.1 h1 h2

theorem dateLeB_total (a b : Date) : dateLeB a b = true ∨ dateLeB b a = true := by
  simp only [dateLeB, decide_eq_true_eq]
  omega

theorem dateLeB_trans (a b c : Date) (h1 : dateLeB a b = true) (h2 : dateLeB b c = true) :
    dateLeB a c = true := by
  simp only [dateLeB, decide_eq_true_eq] at h1 h2 ⊢
  omega

theorem dateLtB_of_le_ne (a b : Date) (h : dateLeB a b = true) (hne : a ≠ b) :
    dateLtB a b = true := by
  cases a with
  | mk ay am ad =>
    cases b with
    | mk yb mb db =>
      simp only [dateLeB, dateLtB, decide_eq_true_eq] at h ⊢
      have hne2 : ¬ (ay = yb ∧ am = mb ∧ ad = db) := by
        intro hc
        exact hne (by rw [hc.1, hc.2.1, hc.2.2])
      omega

theorem dayLeB_total (a b : Date × ℚ) : dayLeB a b = true ∨ dayLeB b a = true :=
  dateLeB_total a.1 b.1

theorem dayLeB_trans (a b c : Date × ℚ) (h1 : dayLeB a b = true) (h2 : dayLeB b c = true) :
    dayLeB a c = true :=
  dateLeB_trans a.1 b.1 c.1 h1 h2

theorem sumValues_sortBy {κ : Type} (le : (κ × ℚ) → (κ × ℚ) → Bool) (m : List (κ × ℚ)) :
    sumValues (sortBy le m) = sumValues m :=
  List.Perm.sum_eq ((sortBy_perm le m).map Prod.snd)

theorem summarize_nonEmpty (ts : List Transaction) (h : ts ≠ []) :
    summarize_transactions ts
      = { transactions := ts
          total_amount := ts.foldl (fun acc t => acc + t.amount) 0
          totals_by_category := sortBy catLeB (groupTotals (fun t => t.category) ts)
          totals_by_day := sortBy dayLeB (groupTotals (fun t => t.occurred_on) ts) } := by
  simp [summarize_transactions, h]

theorem exceptIsOk_eq_true {ε α : Type} (x : Except ε α) (h : exceptIsOk x = true) :
    ∃ t, x = .ok t := by
  cases x with
  | ok t => exact ⟨t, rfl⟩
  | error e => simp [exceptIsOk] at h

theorem loadWith_cons {ρ : Type} (coe : ρ → Except LoadError Transaction) (r : ρ)
    (rs : List ρ) :
    loadWith coe (r :: rs)
      = match coe r with
        | .error e => .error e
        | .ok t =>
          match loadWith coe rs with
          | .error e => .error e
          | .ok ts => .ok (t :: ts) := rfl

theorem loadWith_error_of_mem {ρ : Type} (coe : ρ → Except LoadError Transaction)
    (rs : List ρ) (r : ρ) (hmem : r ∈ rs) (h : exceptIsOk (coe r) = false) :
    exceptIsOk (loadWith coe rs) = false := by
  induction rs with
  | nil => cases hmem
  | cons p rs ih =>
    rw [loadWith_cons]
    rcases List.mem_cons.mp hmem with rfl | hmem2
    · cases hc : coe r with
      | error e => simp [exceptIsOk]
      | ok t => rw [hc] at h; simp [exceptIsOk] at h
    · cases hc : coe p with
      | error e => simp [exceptIsOk]
      | ok t =>
        have hf := ih hmem2
        cases hl : loadWith coe rs with
        | error e => simp [exceptIsOk]
        | ok ts => rw [hl] at hf; simp [exceptIsOk] at hf

theorem loadWith_append_error {ρ : Type} (coe : ρ → Except LoadError Transaction)
    (pre post : List ρ) (r : ρ) (e : LoadError)
    (hpre : ∀ p ∈ pre, exceptIsOk (coe p) = true) (hr : coe r = .error e) :
    loadWith coe (pre ++ r :: post) = .error e := by
  induction pre with
  | nil => simp only [List.nil_append]; rw [loadWith_cons, hr]
  | cons p pre ih =>
    have hp := hpre p (by simp)
    rcases exceptIsOk_eq_true _ hp with ⟨t, ht⟩
    have hrec := ih (fun q hq => hpre q (by simp [hq]))
    simp only [List.cons_append]
    rw [loadWith_cons, ht, hrec]

theorem filter_pos_add_filter_neg_sum (l : List ℚ) :
    ((l.filter (fun v => decide (0 < v))).sum + (l.filter (fun v => decide (v < 0))).sum)
      = l.sum := by
  induction l with
  | nil => simp
  | cons a l ih =>
    rcases lt_trichotomy 0 a with h | h | h
    · have hn : ¬ (a < 0) := by linarith
      simp only [List.filter_cons, decide_eq_true_eq, h, if_true, hn, if_false,
        decide_eq_false_iff_not, List.sum_cons]
      rw [← ih]; ring
    · subst h
      simp only [List.filter_cons, decide_eq_true_eq, lt_irrefl, if_false]
      simpa using ih
    · have hn : ¬ (0 < a) := by linarith
      simp only [List.filter_cons, decide_eq_true_eq, hn, if_false, h, if_true,
        List.sum_cons]
      rw [← ih]; ring

theorem normalise_category_ne_empty (s : String) : normalise_category s ≠ "" := by
  unfold normalise_category
  by_cases h : pyStrip s = ""
  · rw [if_pos h]; decide
  · rw [if_neg h]; exact h

/-- The spec's worked example: the three transactions of §8 (also the fixture
of `tests/test_templates.py`). -/
def exampleTransactions : List Transaction :=
  [ { occurred_on := ⟨2024, 1, 1⟩, category := "Sales"
      description := "Invoice #1001", amount := 1200 }
  , { occurred_on := ⟨2024, 1, 2⟩, category := "Subscriptions"
      description := "Monthly recurring", amount := 800 }
  , { occurred_on := ⟨2024, 1, 3⟩, category := "Rent"
      description := "Office lease", amount := -600 } ]

/-- C1: for every non-empty transaction sequence, the summary's `total_amount`
equals the exact decimal sum of all amounts, and equals the sum of the
`totals_by_category` values and the sum of the `totals_by_day` values. -/
theorem C1_total_amount_invariant (ts : List Transaction) (h : ts ≠ []) :
    (summarize_transactions ts).total_amount = (ts.map (fun t => t.amount)).sum
    ∧ (summarize_transactions ts).total_amount
        = sumValues (summarize_transactions ts).totals_by_category
    ∧ (summarize_transactions ts).total_amount
        = sumValues (summarize_transactions ts).totals_by_day := by
  rw [summarize_nonEmpty ts h]
  dsimp only
  refine ⟨?_, ?_, ?_⟩
  · simpa using foldl_add_amount ts 0
  · rw [sumValues_sortBy, sumValues_groupTotals]
    simpa using foldl_add_amount ts 0
  · rw [sumValues_sortBy, sumValues_groupTotals]
    simpa using foldl_add_amount ts 0

/-- Witness for C1: the invariant at the spec's worked example. -/
theorem C1_total_amount_invariant_witness :
    (summarize_transactions exampleTransactions).total_amount
        = (exampleTransactions.map (fun t => t.amount)).sum
    ∧ (summarize_transactions exampleTransactions).total_amount
        = sumValues (summarize_transactions exampleTransactions).totals_by_category
    ∧ (summarize_transactions exampleTransactions).total_amount
        = sumValues (summarize_transactions exampleTransactions).totals_by_day :=
  C1_total_amount_invariant exampleTransactions (by decide)

/-- C2: in the styled-document renderer, `total_revenue` is the sum of the
strictly positive category totals, `total_expenses` the negated sum of the
strictly negative ones, `gross_profit` their difference; and on the spec's
worked example the computed values are 1400 / 2000 / 600 / 1400 / 1400 with
category counts 3 / 2 / 1 / 0. -/
theorem C2_styled_kpis_example :
    (∀ s : ReportSummary,
        (computeKpis s).total_revenue
          = ((s.totals_by_category.map Prod.snd).filter (fun v => decide (0 < v))).sum
        ∧ (computeKpis s).total_expenses
          = -(((s.totals_by_category.map Prod.snd).filter (fun v => decide (v < 0))).sum)
        ∧ (computeKpis s).gross_profit
          = (computeKpis s).total_revenue - (computeKpis s).total_expenses)
    ∧ (summarize_transactions exampleTransactions).total_amount = 1400
    ∧ (computeKpis (summarize_transactions exampleTransactions)).total_revenue = 2000
    ∧ (computeKpis (summarize_transactions exampleTransactions)).total_expenses = 600
    ∧ (computeKpis (summarize_transactions exampleTransactions)).gross_profit = 1400
    ∧ (computeKpis (summarize_transactions exampleTransactions)).net_income = 1400
    ∧ (computeKpis (summarize_transactions exampleTransactions)).category_count = 3
    ∧ (computeKpis (summarize_transactions exampleTransactions)).revenue_category_count = 2
    ∧ (computeKpis (summarize_transactions exampleTransactions)).expense_category_count = 1
    ∧ (computeKpis (summarize_transactions exampleTransactions)).neutral_category_count = 0 := by
  have hne : exampleTransactions ≠ [] := by decide
  have hs : summarize_transactions exampleTransactions
      = { transactions := exampleTransactions
          total_amount := 1400
          totals_by_category := [("Rent", -600), ("Sales", 1200), ("Subscriptions", 800)]
          totals_by_day := [(⟨2024, 1, 1⟩, 1200), (⟨2024, 1, 2⟩, 800), (⟨2024, 1, 3⟩, -600)] } := by
    rw [summarize_nonEmpty _ hne]
    have h1 : exampleTransactions.foldl (fun acc t => acc + t.amount) 0 = (1400 : ℚ) := by
      simp [exampleTransactions]
      norm_num
    have h2 : sortBy catLeB (groupTotals (fun t => t.category) exampleTransactions)
        = [("Rent", -600), ("Sales", 1200), ("Subscriptions", 800)] := by decide
    have h3 : sortBy dayLeB (groupTotals (fun t => t.occurred_on) exampleTransactions)
        = [(⟨2024, 1, 1⟩, 1200), (⟨2024, 1, 2⟩, 800), (⟨2024, 1, 3⟩, -600)] := by decide
    rw [h1, h2, h3]
  have hvals : ([("Rent", (-600 : ℚ)), ("Sales", 1200), ("Subscriptions", 800)].map Prod.snd)
      = [-600, 1200, 800] := by decide
  have hpos : ([(-600 : ℚ), 1200, 800].filter (fun v => decide (0 < v))) = [1200, 800] := by
    decide
  have hneg : ([(-600 : ℚ), 1200, 800].filter (fun v => decide (v < 0))) = [-600] := by decide
  have hsum2 : ([(1200 : ℚ), 800]).foldl (fun x v => x + v) 0 = 2000 := by
    rw [foldl_add_vals]; norm_num
  have hsum1 : ([(-600 : ℚ)]).foldl (fun x v => x + v) 0 = -600 := by
    rw [foldl_add_vals]; norm_num
  refine ⟨fun s => ⟨?_, ?_, ?_⟩, ?_, ?_, ?_, ?_, ?_, ?_, ?_, ?_, ?_⟩
  · dsimp only [computeKpis]
    rw [foldl_add_vals]
    simp
  · dsimp only [computeKpis]
    rw [foldl_add_vals]
    simp
  · dsimp only [computeKpis]
  · rw [hs]
  · rw [hs]
    dsimp only [computeKpis]
    rw [hvals, hpos, hsum2]
  · rw [hs]
    dsimp only [computeKpis]
    rw [hvals, hneg, hsum1]
    norm_num
  · rw [hs]
    dsimp only [computeKpis]
    rw [hvals, hpos, hneg, hsum2, hsum1]
    norm_num
  · rw [hs]
    rfl
  · rw [hs]
    rfl
  · rw [hs]
    dsimp only [computeKpis]
    rw [hvals, hpos]
    rfl
  · rw [hs]
    dsimp only [computeKpis]
    rw [hvals, hneg]
    rfl
  · rw [hs]
    dsimp only [computeKpis]
    rw [hvals, hpos, hneg]
    rfl

/-- C3: each renderer is a deterministic function of the summary alone.  The
only ambient input any renderer reads is `date.today()` in the styled
renderer, threaded here as an argument; its value never reaches the output
(the `Generated {generated_on}` template line is not an f-string), so two
renders of the same summary are byte-identical in all three formats. -/
theorem C3_renderers_deterministic (s : ReportSummary) (t₁ t₂ : Date) :
    build_html_report t₁ s = build_html_report t₂ s
    ∧ build_markdown_report s = build_markdown_report s
    ∧ s.as_dict = s.as_dict :=
  ⟨rfl, rfl, rfl⟩

set_option maxRecDepth 40000 in
/-- C4: the empty input yields the zero summary (not an error); the markup
renderer short-circuits to the single no-transactions notice and omits all
tables; the styled renderer's three data sections render empty-state cards
with no table rows; the structured renderer carries empty lists. -/
theorem C4_empty_input :
    summarize_transactions []
        = { transactions := [], total_amount := 0
            totals_by_category := [], totals_by_day := [] }
    ∧ build_markdown_report (summarize_transactions [])
        = "# Financial Summary\n\nNo transactions supplied."
    ∧ strHasSub (build_category_section (summarize_transactions []).totals_by_category) ("<tr")
        = false
    ∧ strHasSub (build_daily_section (summarize_transactions []).totals_by_day) ("<tr")
        = false
    ∧ strHasSub (build_transaction_section (summarize_transactions []).transactions) ("<tr")
        = false
    ∧ (summarize_transactions []).as_dict
        = { transactions := [], total_amount := decStr 0
            totals_by_category := [], totals_by_day := [] } := by
  refine ⟨rfl, by decide, by decide, by decide, by decide, rfl⟩

/-- C5: for every input, the summary's category map iterates its keys in
strictly ascending lexicographic order and its day map in strictly ascending
chronological order, and the structured-data renderer emits both maps in the
same orders. -/
theorem C5_sorted_map_iteration (ts : List Transaction) :
    ((summarize_transactions ts).totals_by_category.map Prod.fst).Pairwise
        (fun a b => strLtB a b = true)
    ∧ ((summarize_transactions ts).totals_by_day.map Prod.fst).Pairwise
        (fun a b => dateLtB a b = true)
    ∧ ((summarize_transactions ts).as_dict).totals_by_category.map Prod.fst
        = (summarize_transactions ts).totals_by_category.map Prod.fst
    ∧ ((summarize_transactions ts).as_dict).totals_by_day.map Prod.fst
        = (summarize_transactions ts).totals_by_day.map (fun p => p.1.isoformat) := by
  by_cases h : ts = []
  · subst h
    refine ⟨?_, ?_, ?_, ?_⟩ <;>
      simp [summarize_transactions, ReportSummary.as_dict, sortBy]
  · rw [summarize_nonEmpty ts h]
    dsimp only
    have hcatPW : (sortBy catLeB (groupTotals (fun t => t.category) ts)).Pairwise
        (fun a b => catLeB a b = true) :=
      sortBy_pairwise catLeB catLeB_total catLeB_trans _
    have hdayPW : (sortBy dayLeB (groupTotals (fun t => t.occurred_on) ts)).Pairwise
        (fun a b => dayLeB a b = true) :=
      sortBy_pairwise dayLeB dayLeB_total dayLeB_trans _
    have hcatND : ((sortBy catLeB (groupTotals (fun t => t.category) ts)).map Prod.fst).Nodup := by
      have hperm := (sortBy_perm catLeB (groupTotals (fun t => t.category) ts)).map Prod.fst
      exact hperm.nodup_iff.mpr (nodup_keys_groupTotals _ ts)
    have hdayND : ((sortBy dayLeB (groupTotals (fun t => t.occurred_on) ts)).map Prod.fst).Nodup := by
      have hperm := (sortBy_perm dayLeB (groupTotals (fun t => t.occurred_on) ts)).map Prod.fst
      exact hperm.nodup_iff.mpr (nodup_keys_groupTotals _ ts)
    refine ⟨?_, ?_, ?_, ?_⟩
    · rw [List.pairwise_map]
      have hne := List.pairwise_map.mp hcatND
      exact (hcatPW.and hne).imp (fun hab => strLtB_of_le_ne _ _ hab.1 hab.2)
    · rw [List.pairwise_map]
      have hne := List.pairwise_map.mp hdayND
      exact (hdayPW.and hne).imp (fun hab => dateLtB_of_le_ne _ _ hab.1 hab.2)
    · dsimp only [ReportSummary.as_dict]
      rw [sortBy_eq_self catLeB _ hcatPW]
      simp [List.map_map, Function.comp]
    · dsimp only [ReportSummary.as_dict]
      rw [sortBy_eq_self dayLeB _ hdayPW]
      simp [List.map_map, Function.comp]

/-- C10: for every summary produced by `summarize_transactions`, the styled
renderer's `gross_profit` equals its `net_income` (the summary's
`total_amount`) — zero-net categories contribute to neither revenue nor
expenses while every category total sums to the overall total. -/
theorem C10_gross_profit_equals_net_income (ts : List Transaction) :
    (computeKpis (summarize_transactions ts)).gross_profit
      = (summarize_transactions ts).total_amount := by
  by_cases h : ts = []
  · subst h
    simp [summarize_transactions, computeKpis]
  · rw [summarize_nonEmpty ts h]
    dsimp only [computeKpis]
    rw [foldl_add_vals, foldl_add_vals, foldl_add_amount]
    simp only [zero_add]
    rw [sub_neg_eq_add, filter_pos_add_filter_neg_sum]
    rw [show ((sortBy catLeB (groupTotals (fun t => t.category) ts)).map Prod.snd).sum
          = sumValues (sortBy catLeB (groupTotals (fun t => t.category) ts)) from rfl]
    rw [sumValues_sortBy, sumValues_groupTotals]

instance {ε α : Type} [DecidableEq ε] [DecidableEq α] : DecidableEq (Except ε α) := fun x y =>
  match x, y with
  | .ok a, .ok b =>
    if h : a = b then .isTrue (by rw [h]) else .isFalse (by intro hc; injection hc; exact h (by assumption))
  | .ok _, .error _ => .isFalse (by intro hc; exact Except.noConfusion hc)
  | .error _, .ok _ => .isFalse (by intro hc; exact Except.noConfusion hc)
  | .error e, .error f =>
    if h : e = f then .isTrue (by rw [h]) else .isFalse (by intro hc; injection hc; exact h (by assumption))

theorem coerce_date_str (s : String) :
    coerce_date (some (PyVal.str s))
      = match parseIsoDate (pyStrip s) with
        | some d => .ok d
        | none => .error (.malformedDate s) := rfl

theorem coerce_amount_str (s : String) :
    coerce_amount (some (PyVal.str s))
      = match parseDecimal s with
        | some q => .ok q
        | none => .error .invalidOperation := rfl

theorem processJsonRecord_ok_fields (r : JsonRecord) (t : Transaction)
    (hok : processJsonRecord r = .ok t) :
    t.category = normalise_category (pyStrOrNone (jgetD r.category (some (.str ("")))))
    ∧ t.description = pyStrOrNone (jgetD r.description (some (.str ("")))) := by
  unfold processJsonRecord at hok
  cases hd : coerce_date (jget r.date) with
  | error e => rw [hd] at hok; simp at hok
  | ok d =>
    rw [hd] at hok
    cases ha : coerce_amount (jget r.amount) with
    | error e => rw [ha] at hok; simp at hok
    | ok a =>
      rw [ha] at hok
      injection hok with h
      subst h
      exact ⟨rfl, rfl⟩

theorem processCsvRow_ok_fields (r : CsvRow) (t : Transaction)
    (hok : processCsvRow r = .ok t) :
    (∃ sc, cgetD r.category ("") = some sc ∧ t.category = normalise_category sc)
    ∧ t.description = csvStr (cgetD r.description ("")) := by
  unfold processCsvRow at hok
  cases hd : coerce_date ((cget r.date).map PyVal.str) with
  | error e => rw [hd] at hok; simp at hok
  | ok d =>
    rw [hd] at hok
    cases hc : csvCategory (cgetD r.category ("")) with
    | error e => rw [hc] at hok; simp at hok
    | ok c =>
      rw [hc] at hok
      cases ha : coerce_amount ((cget r.amount).map PyVal.str) with
      | error e => rw [ha] at hok; simp at hok
      | ok a =>
        rw [ha] at hok
        injection hok with h
        subst h
        cases hcg : cgetD r.category ("") with
        | none => rw [hcg] at hc; simp [csvCategory] at hc
        | some sc =>
          rw [hcg] at hc
          refine ⟨⟨sc, rfl, ?_⟩, rfl⟩
          unfold csvCategory at hc
          injection hc with h2
          exact h2.symm

/-- The JSON record with the malformed date that the spec uses as its
example. -/
def C6BadRecord : JsonRecord :=
  { date := some (some (PyVal.str ("not-a-date")))
    category := some (some (PyVal.str ("Sales")))
    description := some (some (PyVal.str ("x")))
    amount := some (some (PyVal.num 1)) }

/-- C6 counterexample: the string `" 2024-01-01"` (leading space) is not in
strict `YYYY-MM-DD` form, yet the loader's date coercion accepts it, because
`_coerce_date` calls `.strip()` on the string before parsing. -/
theorem C6_claim_counterexample :
    exceptIsOk (coerce_date (some (PyVal.str (" 2024-01-01")))) = true
    ∧ parseIsoDate (" 2024-01-01") = none := by
  exact ⟨by decide, by decide⟩

/-- C6 amended: a date string is accepted exactly when its stripped form is in
strict `YYYY-MM-DD` form; when the stripped form does not parse, the record's
coercion fails with `MalformedField`, and loading any record list containing
such a record produces an error and no transaction list. -/
theorem C6_amended_stripped_iso :
    (∀ s : String,
        exceptIsOk (coerce_date (some (PyVal.str s))) = true
          ↔ (parseIsoDate (pyStrip s)).isSome = true)
    ∧ (∀ s : String, parseIsoDate (pyStrip s) = none →
        coerce_date (some (PyVal.str s)) = .error (.malformedDate s))
    ∧ (∀ (rs : List JsonRecord) (r : JsonRecord) (s : String),
        r ∈ rs → r.date = some (some (PyVal.str s)) → parseIsoDate (pyStrip s) = none →
        exceptIsOk (load_transactions_json rs) = false) := by
  have herr : ∀ s : String, parseIsoDate (pyStrip s) = none →
      coerce_date (some (PyVal.str s)) = .error (.malformedDate s) := by
    intro s h
    rw [coerce_date_str, h]
  refine ⟨?_, herr, ?_⟩
  · intro s
    rw [coerce_date_str]
    cases h : parseIsoDate (pyStrip s) with
    | none => simp [h, exceptIsOk]
    | some d => simp [h, exceptIsOk]
  · intro rs r s hmem hdate hbad
    apply loadWith_error_of_mem processJsonRecord rs r hmem
    have hcd : coerce_date (jget r.date) = .error (.malformedDate s) := by
      rw [hdate]
      exact herr s hbad
    unfold processJsonRecord
    rw [hcd]
    rfl

/-- Witness for the C6 amended theorem at the concrete inputs `"not-a-date"`
and the one-record list containing it. -/
theorem C6_amended_stripped_iso_witness :
    coerce_date (some (PyVal.str ("not-a-date"))) = .error (.malformedDate ("not-a-date"))
    ∧ exceptIsOk (load_transactions_json [C6BadRecord]) = false :=
  ⟨C6_amended_stripped_iso.2.1 ("not-a-date") (by decide),
   C6_amended_stripped_iso.2.2 [C6BadRecord] C6BadRecord ("not-a-date")
     (by decide) rfl (by decide)⟩

/-- A JSON record whose `amount` key is absent. -/
def C7MissingAmountRecord : JsonRecord :=
  { date := some (some (PyVal.str ("2024-01-02")))
    category := some (some (PyVal.str ("Ops")))
    description := some (some (PyVal.str ("y")))
    amount := none }

/-- A well-formed JSON record. -/
def C7GoodRecord : JsonRecord :=
  { date := some (some (PyVal.str ("2024-01-01")))
    category := some (some (PyVal.str ("Sales")))
    description := some (some (PyVal.str ("z")))
    amount := some (some (PyVal.num 1)) }

/-- A JSON record with a malformed date string and a well-formed amount. -/
def C7BadDateRecord : JsonRecord :=
  { date := some (some (PyVal.str ("not-a-date")))
    category := some (some (PyVal.str ("A")))
    description := some (some (PyVal.str ("w")))
    amount := some (some (PyVal.num 1)) }

/-- C7 counterexample: an input whose second record lacks `amount` but whose
first record carries a malformed date fails with the date's `MalformedField`
error, not with `MissingField` as the claim requires of every input containing
an amount-less record. -/
theorem C7_claim_counterexample :
    C7MissingAmountRecord.amount = none
    ∧ load_transactions_json [C7BadDateRecord, C7MissingAmountRecord]
        = .error (.malformedDate ("not-a-date"))
    ∧ LoadError.malformedDate ("not-a-date") ≠ LoadError.missingField ("amount") := by
  exact ⟨rfl, by decide, by decide⟩

/-- C7 amended: in either encoding, an input containing a record that lacks
the `amount` field always fails to load (no partial transaction list); the
error is `MissingField "amount"` when every preceding record coerces and the
fields coerced before `amount` within the bad record (its date, and on the CSV
path its category) are themselves well-formed. -/
theorem C7_amended_missing_amount :
    (∀ (rs : List JsonRecord) (r : JsonRecord),
        r ∈ rs → r.amount = none → exceptIsOk (load_transactions_json rs) = false)
    ∧ (∀ (pre post : List JsonRecord) (r : JsonRecord),
        (∀ p ∈ pre, exceptIsOk (processJsonRecord p) = true) →
        r.amount = none → exceptIsOk (coerce_date (jget r.date)) = true →
        load_transactions_json (pre ++ r :: post) = .error (.missingField ("amount")))
    ∧ (∀ (rs : List CsvRow) (r : CsvRow),
        r ∈ rs → r.amount = none → exceptIsOk (load_transactions_csv rs) = false)
    ∧ (∀ (pre post : List CsvRow) (r : CsvRow),
        (∀ p ∈ pre, exceptIsOk (processCsvRow p) = true) →
        r.amount = none → exceptIsOk (coerce_date ((cget r.date).map PyVal.str)) = true →
        exceptIsOk (csvCategory (cgetD r.category (""))) = true →
        load_transactions_csv (pre ++ r :: post) = .error (.missingField ("amount"))) := by
  refine ⟨?_, ?_, ?_, ?_⟩
  · intro rs r hmem hamount
    apply loadWith_error_of_mem processJsonRecord rs r hmem
    unfold processJsonRecord
    cases hd : coerce_date (jget r.date) with
    | error e => rfl
    | ok d =>
      rw [hamount]
      rfl
  · intro pre post r hpre hamount hdate
    rcases exceptIsOk_eq_true _ hdate with ⟨d, hd⟩
    apply loadWith_append_error processJsonRecord pre post r _ hpre
    unfold processJsonRecord
    rw [hd, hamount]
    rfl
  · intro rs r hmem hamount
    apply loadWith_error_of_mem processCsvRow rs r hmem
    unfold processCsvRow
    cases hd : coerce_date ((cget r.date).map PyVal.str) with
    | error e => rfl
    | ok d =>
      cases hc : csvCategory (cgetD r.category ("")) with
      | error e => rfl
      | ok c =>
        rw [hamount]
        rfl
  · intro pre post r hpre hamount hdate hcat
    rcases exceptIsOk_eq_true _ hdate with ⟨d, hd⟩
    rcases exceptIsOk_eq_true _ hcat with ⟨c, hc⟩
    apply loadWith_append_error processCsvRow pre post r _ hpre
    unfold processCsvRow
    rw [hd, hc, hamount]
    rfl

/-- Witness for the C7 amended theorem: one valid record followed by a record
lacking `amount` fails with `MissingField "amount"` and yields no list. -/
theorem C7_amended_missing_amount_witness :
    load_transactions_json [C7GoodRecord, C7MissingAmountRecord]
      = .error (.missingField ("amount")) :=
  C7_amended_missing_amount.2.1 [C7GoodRecord] [] C7MissingAmountRecord
    (by decide) rfl (by decide)

/-- A CSV row, with header `date,category,amount,description`, whose data line
carries only three values: `csv.DictReader` fills the missing `description`
cell with its `restval` default `None`. -/
def C8ShortRow : CsvRow :=
  { date := some (some ("2024-01-01"))
    category := some (some ("Food"))
    description := some none
    amount := some (some ("5")) }

/-- The transaction the loader builds from `C8ShortRow`. -/
def C8ExpectedTransaction : Transaction :=
  { occurred_on := ⟨2024, 1, 1⟩, category := "Food", description := "None", amount := 5 }

theorem parseDecimal_five : parseDecimal ("5") = some 5 := by
  have h : parseDecimal ("5")
      = some (1 * ((digitsToNat ['5'] : Nat) : ℚ) * (10 : ℚ) ^ ((0 : Int))) := rfl
  have h2 : digitsToNat ['5'] = 5 := by decide
  rw [h, h2]
  norm_num

theorem C8ShortRow_eval : processCsvRow C8ShortRow = .ok C8ExpectedTransaction := by
  have hd : coerce_date (some (PyVal.str ("2024-01-01"))) = .ok ⟨2024, 1, 1⟩ := by decide
  have hc : csvCategory (some ("Food")) = .ok ("Food") := by decide
  have ha : coerce_amount (some (PyVal.str ("5"))) = .ok 5 := by
    rw [coerce_amount_str, parseDecimal_five]
  unfold processCsvRow
  dsimp only [C8ShortRow, cget, cgetD, Option.map]
  rw [hd, hc, ha]
  rfl

/-- C8 counterexample: the loader accepts `C8ShortRow` — a CSV data row that
supplies no description value — and the loaded description is the string
`"None"` (Python `str(None)`), not the empty string. -/
theorem C8_claim_counterexample :
    processCsvRow C8ShortRow = .ok C8ExpectedTransaction
    ∧ C8ExpectedTransaction.description = "None"
    ∧ ("None" : String) ≠ "" :=
  ⟨C8ShortRow_eval, rfl, by decide⟩

/-- C8 amended: descriptions are loaded verbatim in both encodings, and a
description column absent from a record yields the empty string; however, in
the tabular encoding a description cell left unfilled by a short data row
(`DictReader`'s `restval` `None`) is loaded as the string `"None"`, not the
empty string. -/
theorem C8_amended_description :
    (∀ (r : JsonRecord) (t : Transaction) (s : String),
        processJsonRecord r = .ok t → r.description = some (some (PyVal.str s)) →
        t.description = s)
    ∧ (∀ (r : JsonRecord) (t : Transaction),
        processJsonRecord r = .ok t → r.description = none → t.description = "")
    ∧ (∀ (r : CsvRow) (t : Transaction) (s : String),
        processCsvRow r = .ok t → r.description = some (some s) → t.description = s)
    ∧ (∀ (r : CsvRow) (t : Transaction),
        processCsvRow r = .ok t → r.description = none → t.description = "")
    ∧ (∀ (r : CsvRow) (t : Transaction),
        processCsvRow r = .ok t → r.description = some none → t.description = "None") := by
  refine ⟨?_, ?_, ?_, ?_, ?_⟩
  · intro r t s hok hdesc
    rw [(processJsonRecord_ok_fields r t hok).2, hdesc]
    rfl
  · intro r t hok hdesc
    rw [(processJsonRecord_ok_fields r t hok).2, hdesc]
    rfl
  · intro r t s hok hdesc
    rw [(processCsvRow_ok_fields r t hok).2, hdesc]
    rfl
  · intro r t hok hdesc
    rw [(processCsvRow_ok_fields r t hok).2, hdesc]
    rfl
  · intro r t hok hdesc
    rw [(processCsvRow_ok_fields r t hok).2, hdesc]
    rfl

/-- Witness for the C8 amended theorem: the short CSV row loads with
description `"None"`. -/
theorem C8_amended_description_witness :
    C8ExpectedTransaction.description = "None" :=
  C8_amended_description.2.2.2.2 C8ShortRow C8ExpectedTransaction C8ShortRow_eval rfl

/-- A JSON record with no `category` key. -/
def C9MissingCategoryRecord : JsonRecord :=
  { date := some (some (PyVal.str ("2024-03-05")))
    category := none
    description := some (some (PyVal.str ("d")))
    amount := some (some (PyVal.num 1)) }

/-- C9: in either encoding, a string category is loaded with leading and
trailing whitespace stripped, an absent category key (and an
empty-after-stripping value) becomes the sentinel `"Uncategorised"`, and every
loaded transaction has a non-empty category. -/
theorem C9_category_default_nonempty :
    (∀ (r : JsonRecord) (t : Transaction),
        processJsonRecord r = .ok t →
        t.category ≠ ""
        ∧ (r.category = none → t.category = "Uncategorised")
        ∧ (∀ c : String, r.category = some (some (PyVal.str c)) →
            t.category = if pyStrip c = "" then "Uncategorised" else pyStrip c))
    ∧ (∀ (r : CsvRow) (t : Transaction),
        processCsvRow r = .ok t →
        t.category ≠ ""
        ∧ (r.category = none → t.category = "Uncategorised")
        ∧ (∀ c : String, r.category = some (some c) →
            t.category = if pyStrip c = "" then "Uncategorised" else pyStrip c)) := by
  constructor
  · intro r t hok
    have hcat := (processJsonRecord_ok_fields r t hok).1
    refine ⟨?_, ?_, ?_⟩
    · rw [hcat]
      exact normalise_category_ne_empty _
    · intro h
      rw [hcat, h]
      decide
    · intro c hc
      rw [hcat, hc]
      rfl
  · intro r t hok
    rcases (processCsvRow_ok_fields r t hok).1 with ⟨sc, hcg, hcat⟩
    refine ⟨?_, ?_, ?_⟩
    · rw [hcat]
      exact normalise_category_ne_empty _
    · intro h
      rw [h] at hcg
      have hsc : sc = "" := by
        have : (some ("") : Option String) = some sc := hcg
        injection this with h2
        exact h2.symm
      rw [hcat, hsc]
      decide
    · intro c hc
      rw [hc] at hcg
      have hsc : sc = c := by
        have : (some c : Option String) = some sc := hcg
        injection this with h2
        exact h2.symm
      rw [hcat, hsc]
      rfl

/-- Witness for C9: a record with no category key loads with the sentinel
category, which is non-empty. -/
theorem C9_category_default_nonempty_witness :
    (Transaction.mk ⟨2024, 3, 5⟩ "Uncategorised" "d" 1).category = "Uncategorised"
    ∧ (Transaction.mk ⟨2024, 3, 5⟩ "Uncategorised" "d" 1).category ≠ "" := by
  have h := C9_category_default_nonempty.1 C9MissingCategoryRecord
    (Transaction.mk ⟨2024, 3, 5⟩ "Uncategorised" "d" 1) (by decide)
  exact ⟨h.2.1 rfl, h.1⟩
